import Mathlib

/-!
Shallow embedding of `Coaching app/generate_gauges.py`.

The script draws eight gauge images with PIL and saves each one as a PNG.
We model every PIL drawing call as a `DrawCmd`; running the code for one
gauge yields an `Image` (canvas parameters plus the ordered list of draw
commands) together with the file name the image is saved under, and the
whole module-level run yields the list `theRun` of the eight saved images
in execution order.

Tick marks and tick labels are drawn by the source at the Cartesian point
`(center + r * cos (radians a), center + r * sin (radians a))`; the center
and the polar-to-Cartesian conversion are identical for every tick, so
those commands are recorded by their pre-conversion polar data: the degree
angle `a` handed to `math.radians` and the radii involved.  Lines given
directly in Cartesian coordinates (the horizon gauge) are recorded as
`lineXY`.  `draw.textbbox` is a pure measurement and `print` writes to
stdout; neither draws anything, so neither is modelled.
-/

/-- One PIL drawing call.  Color arguments are the hex strings passed in
the source; a missing `outline` is `none`; a missing `width` is the PIL
default `1`. -/
inductive DrawCmd where
  | ellipse (x0 y0 x1 y1 : Int) (fill : String) (outline : Option String) (width : Nat)
  | pieslice (x0 y0 x1 y1 : Int) (startA endA : Int) (fill : String) (outline : Option String) (width : Nat)
  | tick (angleDeg rIn rOut : Int) (color : String) (width : Nat)
  | label (angleDeg r : Int) (s : String) (fill : String)
  | text (x y : Int) (s : String) (fill : String)
  | rect (x0 y0 x1 y1 : Int) (fill : String) (outline : Option String) (width : Nat)
  | polygon (pts : List (Int × Int)) (fill : String)
  | lineXY (x0 y0 x1 y1 : Int) (color : String) (width : Nat)
deriving DecidableEq

/-- A canvas as created by `Image.new(mode, (width, height), bg)` together
with the ordered draw commands issued on it. -/
structure Image where
  mode : String
  width : Nat
  height : Nat
  bg : Nat × Nat × Nat × Nat
  cmds : List DrawCmd
deriving DecidableEq

/-- An `img.save(filename, "PNG")` call: the finished image and the path
it is written to. -/
structure Saved where
  img : Image
  filename : String
deriving DecidableEq

/-- Python `range(start, stop, step)` for a positive `step`: the list
`start, start + step, ...` strictly below `stop`. -/
def pyRange (start stop step : Int) : List Int :=
  if 0 < step then
    (List.range (((stop - start).toNat + step.toNat - 1) / step.toNat)).map
      (fun i => start + step * (i : Int))
  else []

/-- The standard-gauge label row, lines 45 and 134/199 of the source. -/
def stdLabels : List String := ["0", "", "", "", "50", "", "", "", "100"]

/-- Major tick angles chosen per gauge type in `create_gauge`
(lines 28-44): `range(180, 361, 30)` for fuel, `range(0, 360, 30)` for
compass, `range(-120, 121, 30)` otherwise. -/
def arcMajorAngles (gauge_type : String) : List Int :=
  if gauge_type = "fuel" then pyRange 180 (360 + 1) 30
  else if gauge_type = "compass" then pyRange 0 360 30
  else pyRange (-120) (120 + 1) 30

/-- Label rows chosen per gauge type in `create_gauge` (lines 33/39/45). -/
def arcLabels (gauge_type : String) : List String :=
  if gauge_type = "fuel" then ["E", "", "", "", "", "", "F"]
  else if gauge_type = "compass" then ["N", "", "", "E", "", "", "S", "", "", "W", "", ""]
  else stdLabels

/-- Minor-step angle sequences chosen per gauge type in `create_gauge`
(lines 66-73): `range(180, 361, 10)`, `range(0, 360, 10)`,
`range(-120, 121, 10)`. -/
def arcMinorAngles (gauge_type : String) : List Int :=
  if gauge_type = "fuel" then pyRange 180 (360 + 1) 10
  else if gauge_type = "compass" then pyRange 0 360 10
  else pyRange (-120) (120 + 1) 10

/-- `create_gauge(filename, gauge_type, title, subtitle)`, lines 7-95:
background circle, inner face, major ticks with labels, minor ticks
skipping major angles, hub, then title and subtitle when non-empty. -/
def create_gauge (filename gauge_type title subtitle : String) : Saved :=
  let size : Int := 400
  let center : Int := size / 2
  let outer_radius : Int := 180
  let angles := arcMajorAngles gauge_type
  let labels := arcLabels gauge_type
  let majorCmds : List DrawCmd :=
    angles.enum.flatMap fun p =>
      DrawCmd.tick p.2 (outer_radius - 25) (outer_radius - 10) "#e94560" 3 ::
      (let lab := labels.getD p.1 ""
       if lab ≠ "" then [DrawCmd.label p.2 (outer_radius - 45) lab "#ffffff"] else [])
  let minorCmds : List DrawCmd :=
    (arcMinorAngles gauge_type).filterMap fun a =>
      if a ∈ angles then none
      else some (DrawCmd.tick a (outer_radius - 20) (outer_radius - 10) "#533483" 2)
  { img :=
      { mode := "RGBA", width := 400, height := 400, bg := (255, 255, 255, 0)
        cmds :=
          [DrawCmd.ellipse 20 20 (size - 20) (size - 20) "#1a1a2e" (some "#0f3460") 3,
           DrawCmd.ellipse 60 60 (size - 60) (size - 60) "#16213e" (some "#0f3460") 2]
          ++ majorCmds ++ minorCmds
          ++ [DrawCmd.ellipse (center - 15) (center - 15) (center + 15) (center + 15)
                "#2d2d44" (some "#e94560") 2]
          ++ (if title ≠ "" then [DrawCmd.text center 80 title "#ffffff"] else [])
          ++ (if subtitle ≠ "" then [DrawCmd.text center 320 subtitle "#aaaaaa"] else []) }
    filename := filename }

/-- The module-level thrust gauge, lines 104-174: white background, the
three color-zone pie slices, white inner face, ticks and labels rotated by
`angle_orig + 90 + 180`, title, subtitle, hub, save. -/
def thrustGauge : Saved :=
  let center : Int := 200
  let outer_radius : Int := 180
  let angles_original := pyRange (-120) (120 + 1) 30
  let majorCmds : List DrawCmd :=
    angles_original.enum.flatMap fun p =>
      let angle := p.2 + 90 + 180
      DrawCmd.tick angle (outer_radius - 25) (outer_radius - 10) "#000000" 3 ::
      (let lab := stdLabels.getD p.1 ""
       if lab ≠ "" then [DrawCmd.label angle (outer_radius - 45) lab "#000000"] else [])
  let minorCmds : List DrawCmd :=
    (pyRange (-120) (120 + 1) 10).filterMap fun a =>
      if a ∈ angles_original then none
      else some (DrawCmd.tick (a + 90 + 180) (outer_radius - 20) (outer_radius - 10) "#666666" 2)
  { img :=
      { mode := "RGBA", width := 400, height := 400, bg := (255, 255, 255, 0)
        cmds :=
          [DrawCmd.ellipse 20 20 380 380 "#ffffff" (some "#cccccc") 3,
           DrawCmd.pieslice 60 60 340 340 150 230 "#fca5a5" (some "#dc2626") 2,
           DrawCmd.pieslice 60 60 340 340 230 310 "#fde68a" (some "#fbbf24") 2,
           DrawCmd.pieslice 60 60 340 340 310 390 "#bbf7d0" (some "#22c55e") 2,
           DrawCmd.ellipse 100 100 300 300 "#ffffff" (some "#cccccc") 2]
          ++ majorCmds ++ minorCmds
          ++ [DrawCmd.text center 70 "THRUST" "#000000",
              DrawCmd.text center 330 "Power" "#666666",
              DrawCmd.ellipse (center - 15) (center - 15) (center + 15) (center + 15)
                "#cccccc" (some "#000000") 2] }
    filename := "images/thrust-gauge.png" }

/-- `create_standard_color_gauge(filename, title, subtitle)`, lines
177-237: identical drawing code to the thrust block with the title,
subtitle and file name passed as parameters. -/
def create_standard_color_gauge (filename title subtitle : String) : Saved :=
  let center : Int := 200
  let outer_radius : Int := 180
  let angles_original := pyRange (-120) (120 + 1) 30
  let majorCmds : List DrawCmd :=
    angles_original.enum.flatMap fun p =>
      let angle := p.2 + 90 + 180
      DrawCmd.tick angle (outer_radius - 25) (outer_radius - 10) "#000000" 3 ::
      (let lab := stdLabels.getD p.1 ""
       if lab ≠ "" then [DrawCmd.label angle (outer_radius - 45) lab "#000000"] else [])
  let minorCmds : List DrawCmd :=
    (pyRange (-120) (120 + 1) 10).filterMap fun a =>
      if a ∈ angles_original then none
      else some (DrawCmd.tick (a + 90 + 180) (outer_radius - 20) (outer_radius - 10) "#666666" 2)
  { img :=
      { mode := "RGBA", width := 400, height := 400, bg := (255, 255, 255, 0)
        cmds :=
          [DrawCmd.ellipse 20 20 380 380 "#ffffff" (some "#cccccc") 3,
           DrawCmd.pieslice 60 60 340 340 150 230 "#fca5a5" (some "#dc2626") 2,
           DrawCmd.pieslice 60 60 340 340 230 310 "#fde68a" (some "#fbbf24") 2,
           DrawCmd.pieslice 60 60 340 340 310 390 "#bbf7d0" (some "#22c55e") 2,
           DrawCmd.ellipse 100 100 300 300 "#ffffff" (some "#cccccc") 2]
          ++ majorCmds ++ minorCmds
          ++ [DrawCmd.text center 70 title "#000000",
              DrawCmd.text center 330 subtitle "#666666",
              DrawCmd.ellipse (center - 15) (center - 15) (center + 15) (center + 15)
                "#cccccc" (some "#000000") 2] }
    filename := filename }

def engineGauge : Saved :=
  create_standard_color_gauge "images/engine-gauge.png" "ENGINE" "Condition"

def positiveGauge : Saved :=
  create_standard_color_gauge "images/positive-gauge.png" "POSITIVE" "Emotion"

def weightGauge : Saved :=
  create_standard_color_gauge "images/weight-gauge.png" "WEIGHT" "Balance"

def negativeGauge : Saved :=
  create_standard_color_gauge "images/negative-gauge.png" "NEGATIVE" "Stress"

/-- Fuel-pump position, lines 303-304: `center - 60`, `center - 10`. -/
def pump_x : Int := 200 - 60

def pump_y : Int := 200 - 10

def droplet_top_x : Int := pump_x

def droplet_top_y : Int := pump_y + 5

/-- The fuel-pump icon, lines 308-320.  The source draws it as five calls
under four comment headings: the pump body rectangle, the nozzle
rectangle, the display-screen rectangle, and the droplet (one ellipse plus
one polygon). -/
def fuelIconShapes : List (String × List DrawCmd) :=
  [("body",
    [DrawCmd.rect (pump_x - 20) (pump_y - 25) (pump_x + 20) (pump_y + 25)
       "#666666" (some "#333333") 1]),
   ("nozzle",
    [DrawCmd.rect (pump_x - 25) (pump_y - 15) (pump_x - 20) (pump_y - 5)
       "#666666" (some "#333333") 1]),
   ("screen",
    [DrawCmd.rect (pump_x - 12) (pump_y - 15) (pump_x + 12) (pump_y - 5)
       "#ffffff" (some "#333333") 1]),
   ("droplet",
    [DrawCmd.ellipse (droplet_top_x - 6) droplet_top_y (droplet_top_x + 6) (droplet_top_y + 12)
       "#666666" none 1,
     DrawCmd.polygon
       [(droplet_top_x, droplet_top_y - 8), (droplet_top_x - 6, droplet_top_y),
        (droplet_top_x + 6, droplet_top_y)] "#666666"])]

/-- Major tick angle list of the module-level fuel gauge, line 270. -/
def fuelModuleMajorAngles : List Int := [270, 300, 330, 0, 30, 60, 90]

/-- Label row of the module-level fuel gauge, line 271. -/
def fuelModuleLabels : List String := ["F", "", "", "", "", "", "E"]

/-- Minor angle list of the module-level fuel gauge, line 291:
`list(range(270, 360, 10)) + list(range(0, 91, 10))`. -/
def fuelModuleMinorAngles : List Int := pyRange 270 360 10 ++ pyRange 0 91 10

/-- The module-level fuel gauge, lines 246-330: white background, three
color zones (green 270-330, yellow 330-30 wrapping through 0, red 30-90),
white inner face, ticks and labels, the fuel-pump icon, title, subtitle,
hub, save. -/
def fuelGauge : Saved :=
  let center : Int := 200
  let outer_radius : Int := 180
  let majorCmds : List DrawCmd :=
    fuelModuleMajorAngles.enum.flatMap fun p =>
      DrawCmd.tick p.2 (outer_radius - 25) (outer_radius - 10) "#000000" 3 ::
      (let lab := fuelModuleLabels.getD p.1 ""
       if lab ≠ "" then [DrawCmd.label p.2 (outer_radius - 45) lab "#000000"] else [])
  let minorCmds : List DrawCmd :=
    fuelModuleMinorAngles.filterMap fun a =>
      if a ∈ fuelModuleMajorAngles then none
      else some (DrawCmd.tick a (outer_radius - 20) (outer_radius - 10) "#666666" 2)
  { img :=
      { mode := "RGBA", width := 400, height := 400, bg := (255, 255, 255, 0)
        cmds :=
          [DrawCmd.ellipse 20 20 380 380 "#ffffff" (some "#cccccc") 3,
           DrawCmd.pieslice 60 60 340 340 270 330 "#bbf7d0" (some "#22c55e") 2,
           DrawCmd.pieslice 60 60 340 340 330 30 "#fde68a" (some "#fbbf24") 2,
           DrawCmd.pieslice 60 60 340 340 30 90 "#fca5a5" (some "#dc2626") 2,
           DrawCmd.ellipse 100 100 300 300 "#ffffff" (some "#cccccc") 2]
          ++ majorCmds ++ minorCmds
          ++ (fuelIconShapes.map Prod.snd).flatten
          ++ [DrawCmd.text center 70 "FUEL" "#000000",
              DrawCmd.text center 330 "Energy Level" "#666666",
              DrawCmd.ellipse (center - 15) (center - 15) (center + 15) (center + 15)
                "#cccccc" (some "#000000") 2] }
    filename := "images/fuel-gauge.png" }

def compassGauge : Saved :=
  create_gauge "images/compass-gauge.png" "compass" "COMPASS" "Direction"

/-- The module-level horizon gauge, lines 336-369: dark background, sky
and ground pie slices, horizon line, aircraft symbol, side tick lines at
`y = center + i * 2` for `i` in `range(-30, 31, 10)` skipping `0`, title,
subtitle, save. -/
def horizonGauge : Saved :=
  let center : Int := 200
  let tickCmds : List DrawCmd :=
    (pyRange (-30) (30 + 1) 10).flatMap fun i =>
      if i = 0 then []
      else
        [DrawCmd.lineXY 80 (center + i * 2) 100 (center + i * 2) "#ffffff" 2,
         DrawCmd.lineXY 300 (center + i * 2) 320 (center + i * 2) "#ffffff" 2]
  { img :=
      { mode := "RGBA", width := 400, height := 400, bg := (255, 255, 255, 0)
        cmds :=
          [DrawCmd.ellipse 20 20 380 380 "#1a1a2e" (some "#0f3460") 3,
           DrawCmd.pieslice 60 60 340 340 180 360 "#0066cc" (some "#0f3460") 1,
           DrawCmd.pieslice 60 60 340 340 0 180 "#8b4513" (some "#0f3460") 1,
           DrawCmd.lineXY 60 center 340 center "#ffffff" 3,
           DrawCmd.lineXY (center - 40) center (center - 20) center "#ffff00" 4,
           DrawCmd.lineXY (center + 20) center (center + 40) center "#ffff00" 4,
           DrawCmd.ellipse (center - 8) (center - 8) (center + 8) (center + 8)
             "#ffff00" (some "#ff8800") 2]
          ++ tickCmds
          ++ [DrawCmd.text center 80 "HORIZON" "#ffffff",
              DrawCmd.text center 320 "Attitude" "#aaaaaa"] }
    filename := "images/horizon-gauge.png" }

/-- The complete module-level run, in execution order: thrust (lines
104-174), the four standard color gauges (lines 240-243), fuel (lines
246-330), compass (line 333), horizon (lines 336-369). -/
def theRun : List Saved :=
  [thrustGauge, engineGauge, positiveGauge, weightGauge, negativeGauge,
   fuelGauge, compassGauge, horizonGauge]

/-! ## Observations on the emitted command sequences -/

/-- Is the command a color-zone pie slice. -/
def isZoneCmd : DrawCmd → Bool
  | DrawCmd.pieslice _ _ _ _ _ _ _ _ _ => true
  | _ => false

/-- Is the command a tick line (major or minor). -/
def isTickCmd : DrawCmd → Bool
  | DrawCmd.tick _ _ _ _ _ => true
  | _ => false

/-- Is the command the inner gauge face circle: the ellipse with bounding
box `[100, 100, 300, 300]` (color gauges, lines 127/195/265) or the
ellipse `[60, 60, 340, 340]` filled `#16213e` (`create_gauge`, line 25). -/
def isInnerFace : DrawCmd → Bool
  | DrawCmd.ellipse 100 100 300 300 _ _ _ => true
  | DrawCmd.ellipse 60 60 340 340 "#16213e" _ _ => true
  | _ => false

/-- Positions in the command list at which predicate `p` holds. -/
def cmdIdxs (p : DrawCmd → Bool) (cmds : List DrawCmd) : List Nat :=
  (cmds.enum.filter (fun q => p q.2)).map Prod.fst

/-- Every command satisfying `p` occurs strictly before every command
satisfying `q`. -/
def allBefore (p q : DrawCmd → Bool) (cmds : List DrawCmd) : Bool :=
  (cmdIdxs p cmds).all fun i => (cmdIdxs q cmds).all fun j => i < j

/-- Every zone pie slice precedes the inner face circle and every tick. -/
def zonesFirst (cmds : List DrawCmd) : Bool :=
  allBefore isZoneCmd (fun c => isInnerFace c || isTickCmd c) cmds

/-- The `(start, end)` spans of the zone pie slices, in emission order. -/
def zoneSpans (cmds : List DrawCmd) : List (Int × Int) :=
  cmds.filterMap fun c =>
    match c with
    | DrawCmd.pieslice _ _ _ _ s e _ _ _ => some (s, e)
    | _ => none

/-- Angles of the major tick commands (line width 3), in emission order. -/
def majorTickAngles (cmds : List DrawCmd) : List Int :=
  cmds.filterMap fun c =>
    match c with
    | DrawCmd.tick a _ _ _ 3 => some a
    | _ => none

/-- Angles of the minor tick commands (line width 2), in emission order. -/
def minorTickAngles (cmds : List DrawCmd) : List Int :=
  cmds.filterMap fun c =>
    match c with
    | DrawCmd.tick a _ _ _ 2 => some a
    | _ => none

/-- The `(angle, string)` pairs of the emitted tick labels. -/
def labelPairs (cmds : List DrawCmd) : List (Int × String) :=
  cmds.filterMap fun c =>
    match c with
    | DrawCmd.label a _ s _ => some (a, s)
    | _ => none

/-- Angular length of a zone span, wraparound endpoints normalized modulo
360 (so `310 → 390` and `330 → 30` both measure as their swept arc). -/
def spanLen (z : Int × Int) : Int := (z.2 - z.1) % 360

/-- A span cut into non-wrapping pieces inside `[0, 360)`:
`330 → 30` becomes `[330, 360)` and `[0, 30)`. -/
def normSpans (z : Int × Int) : List (Int × Int) :=
  let s := z.1 % 360
  let e := z.2 % 360
  if e ≤ s then [(s, 360), (0, e)] else [(s, e)]

/-- Two half-open intervals overlap when their interiors intersect. -/
def ivlOverlap (a b : Int × Int) : Bool := max a.1 b.1 < min a.2 b.2

/-- Two zone spans overlap when any of their normalized pieces do. -/
def zonesOverlap (z w : Int × Int) : Bool :=
  (normSpans z).any fun a => (normSpans w).any fun b => ivlOverlap a b

/-- No two distinct spans in the list overlap. -/
def pairwiseDisjointZones : List (Int × Int) → Bool
  | [] => true
  | z :: rest => (rest.all fun w => !zonesOverlap z w) && pairwiseDisjointZones rest

/-- Total arc swept by an angle sequence: the sum of the consecutive
differences, each normalized modulo 360. -/
def arcSweep : List Int → Int
  | a :: b :: rest => (b - a) % 360 + arcSweep (b :: rest)
  | _ => 0

/-- Replace the string of every title/subtitle text command by `""`,
leaving all other commands unchanged: two command lists equal after
`stripText` draw the same picture apart from the text shown. -/
def stripText : List DrawCmd → List DrawCmd :=
  List.map fun c =>
    match c with
    | DrawCmd.text x y _ f => DrawCmd.text x y "" f
    | c => c

/-- Modelled from the spec: the `RotationOffset` of the data model is a
single degree value added to every generated angle before the
trigonometric conversion.  The source has no rotation parameter; its
rotated gauges hard-code the instance `rot = 90 + 180` (lines 138, 157,
203, 220 compute `angle = angle_orig + 90 + 180` before `math.radians`). -/
def applyRotation (rot : Int) (angles : List Int) : List Int :=
  angles.map fun a => a + rot

/-- Modelled from the spec: the three color zones of the standard 240-degree
gauge in its native `-120 .. 120` frame, the 0-33 / 34-66 / 67-100 percent
thirds of the arc.  The source states these zones only as pre-rotated
literals (comments at lines 112-124: red `150-230`, yellow `230-310`,
green `310-390` are the native thirds shifted by the 270-degree rotation). -/
def nativeStandardZones : List (Int × Int) := [(-120, -40), (-40, 40), (40, 120)]

/-- Modelled from the spec: a rotation shifts a zone span by shifting both
endpoints. -/
def rotateSpan (rot : Int) (z : Int × Int) : Int × Int := (z.1 + rot, z.2 + rot)

/-! ## Claims -/

/-- Claim C1: for every gauge whose spec contains color zones (thrust,
engine, positive, weight, negative, fuel), every zone pie slice appears in
the emitted draw sequence before the inner face circle and before every
major and minor tick command; the compass gauge has no zones, so the
property holds for it vacuously. -/
theorem c1_zones_precede_face_and_ticks :
    zonesFirst thrustGauge.img.cmds = true
    ∧ zonesFirst engineGauge.img.cmds = true
    ∧ zonesFirst positiveGauge.img.cmds = true
    ∧ zonesFirst weightGauge.img.cmds = true
    ∧ zonesFirst negativeGauge.img.cmds = true
    ∧ zonesFirst fuelGauge.img.cmds = true
    ∧ zoneSpans compassGauge.img.cmds = []
    ∧ zonesFirst compassGauge.img.cmds = true := by
  refine ⟨rfl, rfl, rfl, rfl, rfl, rfl, rfl, rfl⟩

/-- Claim C2: the rotated standard color gauge carries every tick angle of
the unrotated standard gauge shifted by exactly `90 + 180 = 270` degrees,
the shift being added to the native angle before the trigonometric
conversion; its zone spans are the native-frame standard zones shifted by
the same 270 degrees; and a rotation offset of `0` reproduces the
unrotated angle lists bit-identically. -/
theorem c2_rotation_offset_additive :
    majorTickAngles engineGauge.img.cmds =
      applyRotation (90 + 180)
        (majorTickAngles (create_gauge "standard.png" "standard" "" "").img.cmds)
    ∧ minorTickAngles engineGauge.img.cmds =
      applyRotation (90 + 180)
        (minorTickAngles (create_gauge "standard.png" "standard" "" "").img.cmds)
    ∧ zoneSpans engineGauge.img.cmds = nativeStandardZones.map (rotateSpan (90 + 180))
    ∧ majorTickAngles thrustGauge.img.cmds =
      applyRotation (90 + 180)
        (majorTickAngles (create_gauge "standard.png" "standard" "" "").img.cmds)
    ∧ minorTickAngles thrustGauge.img.cmds =
      applyRotation (90 + 180)
        (minorTickAngles (create_gauge "standard.png" "standard" "" "").img.cmds)
    ∧ zoneSpans thrustGauge.img.cmds = nativeStandardZones.map (rotateSpan (90 + 180))
    ∧ applyRotation 0 (majorTickAngles (create_gauge "standard.png" "standard" "" "").img.cmds)
      = majorTickAngles (create_gauge "standard.png" "standard" "" "").img.cmds
    ∧ applyRotation 0 (minorTickAngles (create_gauge "standard.png" "standard" "" "").img.cmds)
      = minorTickAngles (create_gauge "standard.png" "standard" "" "").img.cmds := by
  refine ⟨rfl, rfl, rfl, rfl, rfl, rfl, ?_, ?_⟩ <;> decide

/-- Claim C3, counterexample: for the standard arc the number of major
tick angles times the step ratio 3 is 27, while the minor-step sequence
has 25 angles, so the claimed identity fails on the standard (and hence
the thrust/engine family) gauges. -/
theorem c3_counterexample_standard :
    ¬ ((arcMajorAngles "standard").length * 3 = (arcMinorAngles "standard").length) := by
  decide

/-- Claim C3, amended: for the arcs with inclusive endpoints (standard and
fuel) the relation is `(majorCount - 1) * 3 = minorCount - 1`; only for
the compass arc, whose upper bound is exclusive, does
`majorCount * 3 = minorCount` hold. -/
theorem c3_amended_tick_ratio :
    ((arcMajorAngles "standard").length - 1) * 3 = (arcMinorAngles "standard").length - 1
    ∧ ((arcMajorAngles "fuel").length - 1) * 3 = (arcMinorAngles "fuel").length - 1
    ∧ (arcMajorAngles "compass").length * 3 = (arcMinorAngles "compass").length := by
  decide

/-- Claim C4: for each gauge of the thrust/engine/positive/weight/negative
family, the three zone spans sum to exactly 240 degrees after normalizing
wraparound endpoints modulo 360, and are pairwise non-overlapping. -/
theorem c4_standard_zone_budget :
    ((zoneSpans thrustGauge.img.cmds).map spanLen).sum = 240
    ∧ pairwiseDisjointZones (zoneSpans thrustGauge.img.cmds) = true
    ∧ ((zoneSpans engineGauge.img.cmds).map spanLen).sum = 240
    ∧ pairwiseDisjointZones (zoneSpans engineGauge.img.cmds) = true
    ∧ ((zoneSpans positiveGauge.img.cmds).map spanLen).sum = 240
    ∧ pairwiseDisjointZones (zoneSpans positiveGauge.img.cmds) = true
    ∧ ((zoneSpans weightGauge.img.cmds).map spanLen).sum = 240
    ∧ pairwiseDisjointZones (zoneSpans weightGauge.img.cmds) = true
    ∧ ((zoneSpans negativeGauge.img.cmds).map spanLen).sum = 240
    ∧ pairwiseDisjointZones (zoneSpans negativeGauge.img.cmds) = true := by
  decide

/-- Claim C5: the fuel gauge has three zone spans which, after normalizing
wraparound endpoints modulo 360, sum to exactly 180 degrees and are
pairwise non-overlapping. -/
theorem c5_fuel_zone_budget :
    (zoneSpans fuelGauge.img.cmds).length = 3
    ∧ ((zoneSpans fuelGauge.img.cmds).map spanLen).sum = 180
    ∧ pairwiseDisjointZones (zoneSpans fuelGauge.img.cmds) = true := by
  decide

/-- Claim C6, counterexample: the tick angles generated for the fuel gauge
that the program actually emits are `270, 300, 330, 0, 30, 60, 90`, which
neither lie inside `[180, 360]` nor equal the inclusive `(180, 360)`
major-angle sequence, so the clause that the fuel gauge tick angles span
exactly the `(180, 360)` range fails. -/
theorem c6_counterexample_fuel_range :
    majorTickAngles fuelGauge.img.cmds = [270, 300, 330, 0, 30, 60, 90]
    ∧ ((majorTickAngles fuelGauge.img.cmds).all fun a => 180 ≤ a && a ≤ 360) = false
    ∧ majorTickAngles fuelGauge.img.cmds ≠ arcMajorAngles "fuel" := by
  decide

/-- Claim C6, amended: `create_gauge` generates the minor-step sequences
exactly as claimed — `[-120, 120]` inclusive for standard with
`(120 - (-120)) / 10 + 1` angles, `[180, 360]` inclusive for fuel with
`(360 - 180) / 10 + 1` angles, and `[0, 360)` for compass with `360 / 10`
angles excluding the duplicate 360; the fuel gauge the program emits does
not use the `(180, 360)` range, however: its major and minor angle lists
are the `(180, 360)` sequences rotated by `+90` degrees and reduced modulo
360, sweeping from 270 through 0 to 90. -/
theorem c6_amended_angle_sequences :
    (arcMinorAngles "standard").head? = some (-120)
    ∧ (arcMinorAngles "standard").getLast? = some 120
    ∧ ((arcMinorAngles "standard").length : Int) = (120 - (-120)) / 10 + 1
    ∧ (arcMinorAngles "fuel").head? = some 180
    ∧ (arcMinorAngles "fuel").getLast? = some 360
    ∧ ((arcMinorAngles "fuel").length : Int) = (360 - 180) / 10 + 1
    ∧ ((arcMinorAngles "compass").length : Int) = 360 / 10
    ∧ (360 : Int) ∉ arcMinorAngles "compass"
    ∧ (arcMinorAngles "compass").head? = some 0
    ∧ (arcMinorAngles "compass").getLast? = some 350
    ∧ majorTickAngles fuelGauge.img.cmds = (arcMajorAngles "fuel").map (fun a => (a + 90) % 360)
    ∧ fuelModuleMinorAngles = (arcMinorAngles "fuel").map (fun a => (a + 90) % 360) := by
  decide

/-- Claim C7: the engine gauge build yields exactly 9 major tick commands;
exactly 3 labels, reading `0`, `50` and `100`, placed at the angles of
major ticks 0, 4 and 8; and exactly 3 zone commands, all emitted before
any tick command. -/
theorem c7_engine_end_to_end :
    (majorTickAngles engineGauge.img.cmds).length = 9
    ∧ labelPairs engineGauge.img.cmds =
        [((majorTickAngles engineGauge.img.cmds).getD 0 0, "0"),
         ((majorTickAngles engineGauge.img.cmds).getD 4 0, "50"),
         ((majorTickAngles engineGauge.img.cmds).getD 8 0, "100")]
    ∧ (zoneSpans engineGauge.img.cmds).length = 3
    ∧ allBefore isZoneCmd isTickCmd engineGauge.img.cmds = true := by
  decide

/-- Claim C8: the fuel gauge build yields the major label row
`F, _, _, _, _, _, E` over exactly 7 major tick positions whose angles
sweep exactly 180 degrees (the two non-empty labels `F` and `E` land on
major ticks 0 and 6), plus one icon overlay of 4 named shapes — body,
nozzle, screen, droplet — whose draw commands appear contiguously in the
emitted sequence. -/
theorem c8_fuel_end_to_end :
    (majorTickAngles fuelGauge.img.cmds).length = fuelModuleLabels.length
    ∧ fuelModuleLabels.length = 7
    ∧ arcSweep (majorTickAngles fuelGauge.img.cmds) = 180
    ∧ labelPairs fuelGauge.img.cmds =
        [((majorTickAngles fuelGauge.img.cmds).getD 0 0, "F"),
         ((majorTickAngles fuelGauge.img.cmds).getD 6 0, "E")]
    ∧ fuelModuleLabels.getD 0 "" = "F"
    ∧ fuelModuleLabels.getD 6 "" = "E"
    ∧ (fuelModuleLabels.filter fun s => s ≠ "").length = 2
    ∧ fuelIconShapes.map Prod.fst = ["body", "nozzle", "screen", "droplet"]
    ∧ fuelIconShapes.length = 4
    ∧ List.IsInfix ((fuelIconShapes.map Prod.snd).flatten) fuelGauge.img.cmds := by
  decide

/-- Claim C9: the complete run saves exactly one PNG per gauge under the
eight fixed file names in order, with no file name repeated, all inside
the single `images/` output directory, and every canvas is created 400 by
400 pixels in RGBA mode with a fully transparent background. -/
theorem c9_run_outputs :
    theRun.map (fun s => s.filename) =
      ["images/thrust-gauge.png", "images/engine-gauge.png", "images/positive-gauge.png",
       "images/weight-gauge.png", "images/negative-gauge.png", "images/fuel-gauge.png",
       "images/compass-gauge.png", "images/horizon-gauge.png"]
    ∧ (theRun.map fun s => s.filename).Nodup
    ∧ (theRun.all fun s => s.filename.data.take 7 == "images/".data) = true
    ∧ (theRun.all fun s =>
        s.img.width == 400 && s.img.height == 400 && s.img.mode == "RGBA"
          && s.img.bg == (255, 255, 255, 0)) = true := by
  decide

/-- Claim C10: the module-level thrust drawing code is exactly
`create_standard_color_gauge` applied to the thrust file name, title and
subtitle, and after blanking the title and subtitle strings its command
sequence is identical to those of the engine, positive, weight and
negative gauges — the layouts agree in every zone, tick, label and hub
command and differ only in the text shown and the output file name. -/
theorem c10_thrust_equals_template :
    thrustGauge = create_standard_color_gauge "images/thrust-gauge.png" "THRUST" "Power"
    ∧ stripText thrustGauge.img.cmds = stripText engineGauge.img.cmds
    ∧ stripText thrustGauge.img.cmds = stripText positiveGauge.img.cmds
    ∧ stripText thrustGauge.img.cmds = stripText weightGauge.img.cmds
    ∧ stripText thrustGauge.img.cmds = stripText negativeGauge.img.cmds
    ∧ thrustGauge.filename ≠ engineGauge.filename := by
  refine ⟨rfl, rfl, rfl, rfl, rfl, ?_⟩
  decide
